import Mathlib

/-!
Shallow embedding of `src/movement_analyzer/app.py`, a minimal Flask
application: at module load it creates four directories with
`os.makedirs(..., exist_ok=True)`, registers the route `GET /` whose
handler is `send_from_directory(TEMPLATES_FOLDER, 'index.html')`, and
then starts the HTTP listener.  `Flask(__name__)` itself additionally
registers the implicit static route `GET /static/<path:filename>`
(default `static_folder='static'`, `static_url_path='/static'`), which
serves existing files under `static/`.

The filesystem is modelled as a set of directory names plus a map from
file paths to byte lists.  `makedirs` follows Python's
`os.makedirs(path, exist_ok=True)`: an existing directory is a silent
success, a regular file occupying the name raises `FileExistsError`,
otherwise the directory is created.  `sendFromDirectory` follows Flask's
`send_from_directory`: it rejects an unsafe filename (a `..` component,
werkzeug's `safe_join`), serves the file at `directory/filename` with
status 200 and a content type guessed from the file extension, and
aborts with 404 when the file is absent.
-/

/-- A filesystem state: the set of existing directories and a map from
file paths to their contents (lists of byte values). -/
structure FS where
  dirs : List String
  files : List (String × List Nat)
deriving DecidableEq, Repr

/-- Whether `p` names an existing regular file. -/
def FS.isFile (fs : FS) (p : String) : Bool :=
  (fs.files.lookup p).isSome

/-- Whether `p` names an existing directory. -/
def FS.isDir (fs : FS) (p : String) : Bool :=
  fs.dirs.contains p

/-- Contents of the file at `p`, when present. -/
def FS.lookupFile (fs : FS) (p : String) : Option (List Nat) :=
  fs.files.lookup p

/-- ASCII bytes of a string (the bodies in this development are ASCII). -/
def strBytes (s : String) : List Nat :=
  s.data.map Char.toNat

/-- `os.makedirs(p, exist_ok=True)`: silent success when the directory
already exists, `FileExistsError` when a regular file occupies the name,
otherwise the directory is created. -/
def makedirs (fs : FS) (p : String) : Except String FS :=
  if fs.isFile p then
    Except.error ("FileExistsError: " ++ p)
  else if fs.isDir p then
    Except.ok fs
  else
    Except.ok { fs with dirs := p :: fs.dirs }

/-- `UPLOAD_FOLDER = 'uploads'` (app.py line 7). -/
def UPLOAD_FOLDER : String := "uploads"

/-- `PROCESSED_FOLDER = 'processed_videos'` (app.py line 8). -/
def PROCESSED_FOLDER : String := "processed_videos"

/-- `TEMPLATES_FOLDER = 'templates'` (app.py line 9). -/
def TEMPLATES_FOLDER : String := "templates"

/-- `STATIC_FOLDER = 'static'` (app.py line 10). -/
def STATIC_FOLDER : String := "static"

/-- The four `os.makedirs` calls executed in order at module top level
(app.py lines 16-19); a raised error aborts the remaining calls and the
module load. -/
def startup (fs : FS) : Except String FS :=
  match makedirs fs UPLOAD_FOLDER with
  | Except.error e => Except.error e
  | Except.ok fs1 =>
    match makedirs fs1 PROCESSED_FOLDER with
    | Except.error e => Except.error e
    | Except.ok fs2 =>
      match makedirs fs2 TEMPLATES_FOLDER with
      | Except.error e => Except.error e
      | Except.ok fs3 => makedirs fs3 STATIC_FOLDER

/-- All four configured directories exist. -/
def provisioned (fs : FS) : Bool :=
  fs.isDir UPLOAD_FOLDER && fs.isDir PROCESSED_FOLDER &&
  fs.isDir TEMPLATES_FOLDER && fs.isDir STATIC_FOLDER

/-- An HTTP request: method, path, query string, headers, body. -/
structure Request where
  method : String
  path : String
  query : String
  headers : List (String × String)
  body : List Nat
deriving DecidableEq, Repr

/-- An HTTP response: status code, body bytes, content type. -/
structure Response where
  status : Nat
  body : List Nat
  contentType : String
deriving DecidableEq, Repr

/-- Whether `filename` ends in the extension `ext`. -/
def hasExt (filename ext : String) : Bool :=
  ext.data.isSuffixOf filename.data

/-- Content type guessed from the file extension, as Python's
`mimetypes.guess_type` does for the extensions relevant here. -/
def guessMimeType (filename : String) : String :=
  if hasExt filename ".html" then "text/html"
  else if hasExt filename ".css" then "text/css"
  else "application/octet-stream"

/-- Split a character list into its `/`-separated components. -/
def pathComponents (cs : List Char) : List (List Char) :=
  cs.foldr
    (fun c acc =>
      if c = '/' then [] :: acc
      else
        match acc with
        | [] => [[c]]
        | g :: gs => (c :: g) :: gs)
    [[]]

/-- Werkzeug's `safe_join` filename check used by `send_from_directory`:
the relative filename must contain no `..` component. -/
def safeFilename (filename : String) : Bool :=
  !((pathComponents filename.data).contains "..".data)

/-- Body of Flask's standard 404 page. -/
def notFoundBody : List Nat :=
  strBytes "<!doctype html>\n<html lang=en>\n<title>404 Not Found</title>\n<h1>Not Found</h1>\n"

/-- Flask's 404 response (`abort(404)` / unmatched route). -/
def notFoundResponse : Response :=
  { status := 404, body := notFoundBody, contentType := "text/html" }

/-- Flask's 405 response for a matched route with a method it does not
accept (`@app.route('/')` accepts GET). -/
def methodNotAllowedResponse : Response :=
  { status := 405, body := strBytes "<!doctype html>\n<title>405 Method Not Allowed</title>\n", contentType := "text/html" }

/-- Flask's `send_from_directory(directory, filename)`: reject an unsafe
filename (werkzeug's `safe_join`), serve the file at
`directory/filename` with status 200 and a content type guessed from the
filename's extension, and abort with 404 when the file is absent. -/
def sendFromDirectory (fs : FS) (directory filename : String) : Response :=
  if safeFilename filename then
    match fs.lookupFile (directory ++ "/" ++ filename) with
    | some bytes => { status := 200, body := bytes, contentType := guessMimeType filename }
    | none => notFoundResponse
  else notFoundResponse

/-- The `filename` captured by Flask's implicit static route
`/static/<path:filename>`: the request path must extend
`/static/`, and werkzeug's `path` converter requires the captured part
to be non-empty and not begin with `/`. -/
def staticFilename (p : String) : Option String :=
  if ("/" ++ STATIC_FOLDER ++ "/").data.isPrefixOf p.data then
    match p.data.drop ("/" ++ STATIC_FOLDER ++ "/").data.length with
    | [] => none
    | c :: cs => if c = '/' then none else some (String.mk (c :: cs))
  else none

/-- Request dispatch of the app: the route `/` (app.py lines 21-23),
whose handler `index` returns
`send_from_directory(TEMPLATES_FOLDER, 'index.html')`; the implicit
static route `/static/<path:filename>` registered by `Flask(__name__)`,
which serves `send_from_directory(STATIC_FOLDER, filename)`; any other
path is unmatched and yields Flask's 404. -/
def handleRequest (fs : FS) (req : Request) : Response :=
  if req.path == "/" then
    if req.method == "GET" then
      sendFromDirectory fs TEMPLATES_FOLDER "index.html"
    else methodNotAllowedResponse
  else
    match staticFilename req.path with
    | some filename =>
      if req.method == "GET" then
        sendFromDirectory fs STATIC_FOLDER filename
      else methodNotAllowedResponse
    | none => notFoundResponse

/-- A filesystem operation: a file read or a directory creation. -/
inductive FSOp where
  | read (p : String)
  | mkdir (p : String)
deriving DecidableEq, Repr

/-- Whether an operation is a read. -/
def FSOp.isRead : FSOp → Bool
  | FSOp.read _ => true
  | FSOp.mkdir _ => false

/-- Effect of one operation on the filesystem: reads change nothing,
`mkdir` acts as `makedirs` (its error leaves the state unchanged). -/
def applyFSOp (fs : FS) : FSOp → FS
  | FSOp.read _ => fs
  | FSOp.mkdir p =>
    match makedirs fs p with
    | Except.ok fs1 => fs1
    | Except.error _ => fs

/-- Effect of a list of operations, in order. -/
def applyFSOps (fs : FS) (ops : List FSOp) : FS :=
  ops.foldl applyFSOp fs

/-- The filesystem operations performed while handling one request:
`send_from_directory` performs a single read of its target file
(`TEMPLATES_FOLDER/index.html` on the `/` route,
`STATIC_FOLDER/<filename>` on the static route, the latter only when the
filename passes the `safe_join` check); an unmatched path or method
touches the filesystem not at all. -/
def requestOps (req : Request) : List FSOp :=
  if req.path == "/" then
    if req.method == "GET" then
      [FSOp.read (TEMPLATES_FOLDER ++ "/" ++ "index.html")]
    else []
  else
    match staticFilename req.path with
    | some filename =>
      if req.method == "GET" then
        if safeFilename filename then
          [FSOp.read (STATIC_FOLDER ++ "/" ++ filename)]
        else []
      else []
    | none => []

/-- Whether path `p` lies inside `folder`: it starts with `folder/` and
contains no `..` component after that prefix. -/
def insideFolder (folder p : String) : Bool :=
  (folder.data ++ ['/']).isPrefixOf p.data &&
  !((pathComponents (p.data.drop (folder.data.length + 1))).contains "..".data)

/-- The serving phase: handle each request in order against the current
filesystem, threading through the filesystem effects of each request.
Returns the responses and the final filesystem. -/
def serveAll (fs : FS) : List Request → List Response × FS
  | [] => ([], fs)
  | r :: rs =>
    let resp := handleRequest fs r
    let fs1 := applyFSOps fs (requestOps r)
    let rest := serveAll fs1 rs
    (resp :: rest.1, rest.2)

/-- The process after module load: either crashed during directory
provisioning, or serving with the provisioned filesystem (app.py
lines 16-19 run before `app.run` on line 26). -/
inductive ServerPhase where
  | crashed (msg : String)
  | serving (fs : FS)
deriving DecidableEq, Repr

/-- Module load: run the four `os.makedirs` calls; a raised error crashes
the process before `app.run` is reached. -/
def boot (fs : FS) : ServerPhase :=
  match startup fs with
  | Except.error e => ServerPhase.crashed e
  | Except.ok fs1 => ServerPhase.serving fs1

/-- Responses produced by a whole execution: none when startup crashed,
otherwise the serving phase's responses. -/
def requestsAccepted (fs : FS) (reqs : List Request) : List Response :=
  match boot fs with
  | ServerPhase.crashed _ => []
  | ServerPhase.serving fs1 => (serveAll fs1 reqs).1

/-- The Flask application object: its mutable `config` dictionary.  The
route table is fixed and embodied in `handleRequest`. -/
structure FlaskApp where
  config : List (String × String)
deriving DecidableEq, Repr

/-- The app as built by app.py lines 12-13: both config assignments
performed. -/
def appWithConfig : FlaskApp :=
  { config := [("UPLOAD_FOLDER", UPLOAD_FOLDER), ("PROCESSED_FOLDER", PROCESSED_FOLDER)] }

/-- The app with the two config assignments removed. -/
def appWithoutConfig : FlaskApp :=
  { config := [] }

/-- Dispatch through an application object.  The handler `index` reads
the module constant `TEMPLATES_FOLDER`, not `app.config`, so dispatch
does not consult `a.config`. -/
def FlaskApp.handle (_a : FlaskApp) (fs : FS) (req : Request) : Response :=
  handleRequest fs req

/-- The serving phase run through an application object. -/
def FlaskApp.serve (_a : FlaskApp) (fs : FS) (reqs : List Request) : List Response × FS :=
  serveAll fs reqs

/-! ## Helper lemmas -/

/-- Facts about a successful `makedirs` call: afterwards the directory
exists, no file was touched, existing directories persist, the name is
not a file, and repeating the call is a silent no-op. -/
theorem makedirs_ok (fs fs1 : FS) (p : String) (h : makedirs fs p = Except.ok fs1) :
    fs1.isDir p = true ∧ fs1.files = fs.files ∧
    (∀ q, fs.isDir q = true → fs1.isDir q = true) ∧
    fs1.isFile p = false ∧
    makedirs fs1 p = Except.ok fs1 := by
  unfold makedirs at h
  split at h
  · simp at h
  next hf =>
    have hf' : fs.isFile p = false := by simpa using hf
    split at h
    next hd =>
      cases h
      exact ⟨hd, rfl, fun q hq => hq, hf', by simp [makedirs, hf', hd]⟩
    next hd =>
      cases h
      refine ⟨?_, rfl, ?_, ?_, ?_⟩
      · simp [FS.isDir]
      · intro q hq
        simp [FS.isDir] at hq ⊢
        exact Or.inr hq
      · simpa [FS.isFile] using hf'
      · have hf2 : FS.isFile { fs with dirs := p :: fs.dirs } p = false := by
          simpa [FS.isFile] using hf'
        have hd2 : FS.isDir { fs with dirs := p :: fs.dirs } p = true := by
          simp [FS.isDir]
        simp [makedirs, hf2, hd2]

/-- `makedirs` is a silent no-op on an existing directory not occupied by
a file. -/
theorem makedirs_already (fs : FS) (p : String)
    (hf : fs.isFile p = false) (hd : fs.isDir p = true) :
    makedirs fs p = Except.ok fs := by
  simp [makedirs, hf, hd]

/-- `FS.isFile` depends only on the file map. -/
theorem isFile_eq_of_files_eq (fs1 fs2 : FS) (p : String) (h : fs1.files = fs2.files) :
    fs1.isFile p = fs2.isFile p := by
  simp [FS.isFile, h]

/-- A successful startup leaves all four directories provisioned and is
idempotent: running it again from the resulting state succeeds and
changes nothing. -/
theorem startup_ok_facts (fs fs1 : FS) (h : startup fs = Except.ok fs1) :
    provisioned fs1 = true ∧ startup fs1 = Except.ok fs1 := by
  unfold startup at h
  split at h
  · simp at h
  next fsa h1 =>
    split at h
    · simp at h
    next fsb h2 =>
      split at h
      · simp at h
      next fsc h3 =>
        obtain ⟨d1, f1, m1, nf1, _⟩ := makedirs_ok fs fsa UPLOAD_FOLDER h1
        obtain ⟨d2, f2, m2, nf2, _⟩ := makedirs_ok fsa fsb PROCESSED_FOLDER h2
        obtain ⟨d3, f3, m3, nf3, _⟩ := makedirs_ok fsb fsc TEMPLATES_FOLDER h3
        obtain ⟨d4, f4, m4, nf4, _⟩ := makedirs_ok fsc fs1 STATIC_FOLDER h
        have du : fs1.isDir UPLOAD_FOLDER = true := m4 _ (m3 _ (m2 _ d1))
        have dp : fs1.isDir PROCESSED_FOLDER = true := m4 _ (m3 _ d2)
        have dt : fs1.isDir TEMPLATES_FOLDER = true := m4 _ d3
        have ds : fs1.isDir STATIC_FOLDER = true := d4
        have fu : fs1.isFile UPLOAD_FOLDER = false := by
          rw [isFile_eq_of_files_eq fs1 fsc _ f4, isFile_eq_of_files_eq fsc fsb _ f3,
            isFile_eq_of_files_eq fsb fsa _ f2]
          exact nf1
        have fp : fs1.isFile PROCESSED_FOLDER = false := by
          rw [isFile_eq_of_files_eq fs1 fsc _ f4, isFile_eq_of_files_eq fsc fsb _ f3]
          exact nf2
        have ft : fs1.isFile TEMPLATES_FOLDER = false := by
          rw [isFile_eq_of_files_eq fs1 fsc _ f4]
          exact nf3
        constructor
        · simp [provisioned, du, dp, dt, ds]
        · unfold startup
          simp only [makedirs_already fs1 UPLOAD_FOLDER fu du,
            makedirs_already fs1 PROCESSED_FOLDER fp dp,
            makedirs_already fs1 TEMPLATES_FOLDER ft dt,
            makedirs_already fs1 STATIC_FOLDER nf4 ds]

/-- Handling a request performs no filesystem mutation. -/
theorem requestOps_noop (fs : FS) (req : Request) :
    applyFSOps fs (requestOps req) = fs := by
  unfold requestOps
  split
  · split <;> rfl
  · split
    · split
      · split <;> rfl
      · rfl
    · rfl

/-- The serving phase is a pure map over the requests: each response is
computed from the boot-time filesystem, which no request changes. -/
theorem serveAll_spec (fs : FS) (reqs : List Request) :
    serveAll fs reqs = (reqs.map (handleRequest fs), fs) := by
  induction reqs with
  | nil => rfl
  | cons r rs ih => simp [serveAll, requestOps_noop, ih]

/-- When `templates/index.html` holds `bytes`, a GET to `/` yields a 200
response with body `bytes` and the mime type guessed for `index.html`. -/
theorem handle_found (fs : FS) (req : Request) (bytes : List Nat)
    (hm : req.method = "GET") (hp : req.path = "/")
    (hfile : fs.lookupFile "templates/index.html" = some bytes) :
    handleRequest fs req =
      { status := 200, body := bytes, contentType := guessMimeType "index.html" } := by
  have h1 : handleRequest fs req = sendFromDirectory fs TEMPLATES_FOLDER "index.html" := by
    simp [handleRequest, hm, hp]
  have h2 : fs.lookupFile (TEMPLATES_FOLDER ++ "/" ++ "index.html") = some bytes := hfile
  have hs : safeFilename "index.html" = true := by decide
  rw [h1]
  simp [sendFromDirectory, hs, h2]

/-- When `templates/index.html` is absent, a GET to `/` yields Flask's
404 response. -/
theorem handle_missing (fs : FS) (req : Request)
    (hm : req.method = "GET") (hp : req.path = "/")
    (habs : fs.lookupFile "templates/index.html" = none) :
    handleRequest fs req = notFoundResponse := by
  have h1 : handleRequest fs req = sendFromDirectory fs TEMPLATES_FOLDER "index.html" := by
    simp [handleRequest, hm, hp]
  have h2 : fs.lookupFile (TEMPLATES_FOLDER ++ "/" ++ "index.html") = none := habs
  have hs : safeFilename "index.html" = true := by decide
  rw [h1]
  simp [sendFromDirectory, hs, h2]

/-! ## Claim theorems -/

/-- C1: for every GET request to `/` issued while `templates/index.html`
exists, the handler returns HTTP status 200 and a response body
byte-for-byte equal to the current contents of `templates/index.html`. -/
theorem index_serves_file (fs : FS) (req : Request) (bytes : List Nat)
    (hm : req.method = "GET") (hp : req.path = "/")
    (hfile : fs.lookupFile "templates/index.html" = some bytes) :
    (handleRequest fs req).status = 200 ∧ (handleRequest fs req).body = bytes := by
  rw [handle_found fs req bytes hm hp hfile]
  exact ⟨rfl, rfl⟩

/-- C1 witness: a concrete filesystem holding `templates/index.html`. -/
theorem index_serves_file_witness :
    (handleRequest ⟨["templates"], [("templates/index.html", strBytes "<html>Hello</html>")]⟩
        ⟨"GET", "/", "", [], []⟩).status = 200 ∧
    (handleRequest ⟨["templates"], [("templates/index.html", strBytes "<html>Hello</html>")]⟩
        ⟨"GET", "/", "", [], []⟩).body = strBytes "<html>Hello</html>" :=
  index_serves_file _ _ _ rfl rfl rfl

/-- C2: for every GET request to `/` issued while `templates/index.html`
is absent, the handler returns a 404 response to that caller; handling is
a total function (no unhandled exception), and subsequent requests are
still served exactly as they would be on their own, with the filesystem
unchanged. -/
theorem index_missing_file_404 (fs : FS) (req : Request) (rest : List Request)
    (hm : req.method = "GET") (hp : req.path = "/")
    (habs : fs.lookupFile "templates/index.html" = none) :
    (handleRequest fs req).status = 404 ∧
    (serveAll fs (req :: rest)).1 = handleRequest fs req :: rest.map (handleRequest fs) ∧
    (serveAll fs (req :: rest)).2 = fs := by
  refine ⟨?_, ?_, ?_⟩
  · rw [handle_missing fs req hm hp habs]
    rfl
  · simp [serveAll_spec]
  · simp [serveAll_spec]

/-- C2 witness: a concrete filesystem without `templates/index.html` and
one subsequent request. -/
theorem index_missing_file_404_witness :
    (handleRequest ⟨["templates"], []⟩ ⟨"GET", "/", "", [], []⟩).status = 404 ∧
    (serveAll ⟨["templates"], []⟩
        [⟨"GET", "/", "", [], []⟩, ⟨"GET", "/", "q=1", [], []⟩]).1 =
      handleRequest ⟨["templates"], []⟩ ⟨"GET", "/", "", [], []⟩ ::
        [⟨"GET", "/", "q=1", [], []⟩].map (handleRequest ⟨["templates"], []⟩) ∧
    (serveAll ⟨["templates"], []⟩
        [⟨"GET", "/", "", [], []⟩, ⟨"GET", "/", "q=1", [], []⟩]).2 = ⟨["templates"], []⟩ :=
  index_missing_file_404 _ _ _ rfl rfl rfl

/-- C3: startup directory provisioning is idempotent: whenever the
provisioning step completes, all four of `uploads`, `processed_videos`,
`templates` and `static` exist (regardless of the initial state), and
running the step a second time succeeds without error and returns the
same filesystem state. -/
theorem startup_idempotent (fs fs1 : FS) (h : startup fs = Except.ok fs1) :
    provisioned fs1 = true ∧ startup fs1 = Except.ok fs1 :=
  startup_ok_facts fs fs1 h

/-- C3 witness: provisioning from an empty filesystem, and from one where
one of the directories already exists. -/
theorem startup_idempotent_witness :
    provisioned ⟨["static", "templates", "processed_videos", "uploads"], []⟩ = true ∧
    startup ⟨["static", "templates", "processed_videos", "uploads"], []⟩ =
      Except.ok ⟨["static", "templates", "processed_videos", "uploads"], []⟩ :=
  startup_idempotent ⟨[], []⟩ _ rfl

/-- C4: the program never reaches the serving phase without all four
directories provisioned: if any of the four `makedirs` calls fails, the
module load crashes with that error, no request is ever accepted, and in
every execution that does reach the serving phase all four directory
creations have completed. -/
theorem startup_failure_fail_fast (fs : FS) (e : String) (reqs : List Request)
    (h : startup fs = Except.error e) :
    boot fs = ServerPhase.crashed e ∧ requestsAccepted fs reqs = [] ∧
    (∀ g g1, boot g = ServerPhase.serving g1 → provisioned g1 = true) := by
  have hb : boot fs = ServerPhase.crashed e := by simp [boot, h]
  refine ⟨hb, by simp [requestsAccepted, hb], ?_⟩
  intro g g1 hg
  unfold boot at hg
  cases hs : startup g with
  | error e2 => rw [hs] at hg; simp at hg
  | ok g2 =>
    rw [hs] at hg
    simp at hg
    rw [← hg]
    exact (startup_ok_facts g g2 hs).1

/-- C4 witness: a regular file named `uploads` makes startup crash and no
request is served. -/
theorem startup_failure_fail_fast_witness :
    boot ⟨[], [("uploads", [])]⟩ = ServerPhase.crashed "FileExistsError: uploads" ∧
    requestsAccepted ⟨[], [("uploads", [])]⟩ [⟨"GET", "/", "", [], []⟩] = [] ∧
    (∀ g g1, boot g = ServerPhase.serving g1 → provisioned g1 = true) :=
  startup_failure_fail_fast _ _ _ rfl

/-- C5 counterexample: `/` is not the only registered route, and a path
other than `/` does not always get a not-found response —
`Flask(__name__)` also registers the static route
`/static/<path:filename>`, so with `static/style.css` present a GET to
`/static/style.css` is served with status 200. -/
theorem static_route_serves_200 :
    ("/static/style.css" : String) ≠ "/" ∧
    (handleRequest ⟨["static"], [("static/style.css", [42])]⟩
        ⟨"GET", "/static/style.css", "", [], []⟩).status = 200 ∧
    handleRequest ⟨["static"], [("static/style.css", [42])]⟩
        ⟨"GET", "/static/style.css", "", [], []⟩ ≠ notFoundResponse := by
  refine ⟨by decide, by decide, by decide⟩

/-- C5 amended: every request whose path matches neither the `/` route
nor the implicit static route `/static/<path:filename>` receives a
not-found response, since these two are the only registered routes. -/
theorem unrouted_path_404 (fs : FS) (req : Request)
    (hp : req.path ≠ "/") (hs : staticFilename req.path = none) :
    handleRequest fs req = notFoundResponse ∧ (handleRequest fs req).status = 404 := by
  have hb : (req.path == "/") = false := by
    simp [hp]
  constructor
  · simp [handleRequest, hb, hs]
  · simp [handleRequest, hb, hs, notFoundResponse]

/-- C5 witness: a concrete request to `/missing`, which matches neither
route. -/
theorem unrouted_path_404_witness :
    handleRequest ⟨[], []⟩ ⟨"GET", "/missing", "", [], []⟩ = notFoundResponse ∧
    (handleRequest ⟨[], []⟩ ⟨"GET", "/missing", "", [], []⟩).status = 404 :=
  unrouted_path_404 _ _ (by decide) (by decide)

/-- C6: every successful GET `/` response carries the content type
guessed from the served file's extension, and for `index.html` that
guess is `text/html`. -/
theorem index_content_type (fs : FS) (req : Request) (bytes : List Nat)
    (hm : req.method = "GET") (hp : req.path = "/")
    (hfile : fs.lookupFile "templates/index.html" = some bytes) :
    (handleRequest fs req).contentType = guessMimeType "index.html" ∧
    guessMimeType "index.html" = "text/html" := by
  rw [handle_found fs req bytes hm hp hfile]
  exact ⟨rfl, by decide⟩

/-- C6 witness: the concrete served file from the C1 scenario. -/
theorem index_content_type_witness :
    (handleRequest ⟨["templates"], [("templates/index.html", [104, 105])]⟩
        ⟨"GET", "/", "", [], []⟩).contentType = guessMimeType "index.html" ∧
    guessMimeType "index.html" = "text/html" :=
  index_content_type _ _ _ rfl rfl rfl

/-- C7: request handling never modifies the filesystem: the serving phase
returns the filesystem it started with for every request sequence, and
every filesystem operation a request performs is a read (never a
directory creation). -/
theorem handler_no_fs_writes (fs : FS) (reqs : List Request) :
    (serveAll fs reqs).2 = fs ∧
    ∀ req, (requestOps req).all FSOp.isRead = true := by
  refine ⟨by simp [serveAll_spec], ?_⟩
  intro req
  unfold requestOps
  split
  · split <;> rfl
  · split
    · split
      · split <;> rfl
      · rfl
    · rfl

/-- C8: request handling is stateless and deterministic: two GET `/`
requests evaluated against the same filesystem receive identical
responses whatever their other fields, and the response to a request is
unaffected by the requests served before it. -/
theorem serving_stateless (fs : FS) (prev : List Request) (r1 r2 : Request)
    (h1m : r1.method = "GET") (h1p : r1.path = "/")
    (h2m : r2.method = "GET") (h2p : r2.path = "/") :
    handleRequest fs r1 = handleRequest fs r2 ∧
    (serveAll fs (prev ++ [r1])).1 = (serveAll fs prev).1 ++ [handleRequest fs r1] := by
  constructor
  · simp [handleRequest, h1m, h1p, h2m, h2p]
  · simp [serveAll_spec]

/-- C8 witness: two GET `/` requests differing in query, headers and
body, one served after another request. -/
theorem serving_stateless_witness :
    handleRequest ⟨["templates"], []⟩ ⟨"GET", "/", "a=1", [("X", "1")], [1]⟩ =
      handleRequest ⟨["templates"], []⟩ ⟨"GET", "/", "", [], []⟩ ∧
    (serveAll ⟨["templates"], []⟩
        ([⟨"GET", "/missing", "", [], []⟩] ++ [⟨"GET", "/", "a=1", [("X", "1")], [1]⟩])).1 =
      (serveAll ⟨["templates"], []⟩ [⟨"GET", "/missing", "", [], []⟩]).1 ++
        [handleRequest ⟨["templates"], []⟩ ⟨"GET", "/", "a=1", [("X", "1")], [1]⟩] :=
  serving_stateless _ _ _ _ rfl rfl rfl rfl

/-- C9: no part of any request routed to the `/` handler influences
which file it reads: every filesystem operation a request with path `/`
triggers is the read of the constant path `templates/index.html`,
whatever its query, headers and body, and that path lies inside the
`templates` directory (no `..` traversal). -/
theorem index_reads_fixed_path (req : Request) (op : FSOp)
    (hp : req.path = "/") (hop : op ∈ requestOps req) :
    op = FSOp.read (TEMPLATES_FOLDER ++ "/" ++ "index.html") ∧
    insideFolder TEMPLATES_FOLDER (TEMPLATES_FOLDER ++ "/" ++ "index.html") = true := by
  refine ⟨?_, by decide⟩
  unfold requestOps at hop
  rw [hp] at hop
  simp only [beq_self_eq_true, if_true] at hop
  split at hop
  · simpa using hop
  · simp at hop

/-- C9 witness: the read performed by a concrete GET `/` request with a
query string, a header and a body. -/
theorem index_reads_fixed_path_witness :
    FSOp.read "templates/index.html" ∈ requestOps ⟨"GET", "/", "a=1", [("X", "1")], [7]⟩ ∧
    (FSOp.read "templates/index.html" = FSOp.read (TEMPLATES_FOLDER ++ "/" ++ "index.html") ∧
     insideFolder TEMPLATES_FOLDER (TEMPLATES_FOLDER ++ "/" ++ "index.html") = true) :=
  ⟨by decide, index_reads_fixed_path ⟨"GET", "/", "a=1", [("X", "1")], [7]⟩ _ rfl (by decide)⟩

/-- C10: the two config assignments `UPLOAD_FOLDER` and
`PROCESSED_FOLDER` are never read: the app with them and the app without
them dispatch every request to the same response and run the serving
phase to the same responses and the same filesystem, even though their
config dictionaries differ. -/
theorem config_entries_unused (fs : FS) (req : Request) (reqs : List Request) :
    appWithConfig.handle fs req = appWithoutConfig.handle fs req ∧
    appWithConfig.serve fs reqs = appWithoutConfig.serve fs reqs ∧
    appWithConfig.config ≠ appWithoutConfig.config :=
  ⟨rfl, rfl, by decide⟩
